import Mathlib

/-!
Shallow embedding of the AlphaGradient repository
(`AlphaGradient/data/datatools.py` and `AlphaGradient/finance/asset.py`)
together with theorems settling the frozen claims about its specification.

Python strings are modelled by Lean `String` (a list of characters);
Python `datetime` values are modelled by `Nat` timestamps; numeric values
by `Rat`.  Pandas tables are modelled by an explicit list of column names
plus rows of cells.  Fallible code returns `Except Err`.
-/

namespace AlphaGradient

/-! ### Character/string layer

`AssetData.column_format` is `column.replace(' ', '_').upper()`.  A
single-character `str.replace` is a per-character substitution, and
`str.upper()` acts per character (ASCII case mapping modelled here), so
both are embedded as character maps over the string's data.  -/

/-- Python `str.upper()` on one character (ASCII case mapping:
lowercase letters `a`-`z` map to `A`-`Z`, everything else is fixed). -/
def upChar (c : Char) : Char :=
  if 97 ≤ c.toNat ∧ c.toNat ≤ 122 then Char.ofNat (c.toNat - 32) else c

/-- One character of `column.replace(' ', '_').upper()`. -/
def fmtChar (c : Char) : Char :=
  upChar (if c = ' ' then '_' else c)

/-- Embedding of `AssetData.column_format` (datatools.py line 203):
`column.replace(' ', '_').upper()`, embedded per character. -/
def column_format (s : String) : String :=
  ⟨s.data.map fmtChar⟩

theorem toNat_ofNat_small {n : Nat} (h : n < 55296) : (Char.ofNat n).toNat = n := by
  unfold Char.ofNat
  rw [dif_pos (Or.inl h)]
  rfl

theorem char_eq_of_toNat_eq {c d : Char} (h : c.toNat = d.toNat) : c = d := by
  apply Char.ext
  exact UInt32.ext h

theorem upChar_toNat (c : Char) :
    (upChar c).toNat = if 97 ≤ c.toNat ∧ c.toNat ≤ 122 then c.toNat - 32 else c.toNat := by
  unfold upChar
  split
  · next h => exact toNat_ofNat_small (by omega)
  · rfl

theorem upChar_of_not_lower {d : Char} (h : ¬ (97 ≤ d.toNat ∧ d.toNat ≤ 122)) :
    upChar d = d := by
  unfold upChar
  exact if_neg h

theorem upChar_not_lower (c : Char) :
    ¬ (97 ≤ (upChar c).toNat ∧ (upChar c).toNat ≤ 122) := by
  have h1 := upChar_toNat c
  by_cases h : 97 ≤ c.toNat ∧ c.toNat ≤ 122
  · rw [if_pos h] at h1
    omega
  · rw [if_neg h] at h1
    omega

theorem upChar_idem (c : Char) : upChar (upChar c) = upChar c :=
  upChar_of_not_lower (upChar_not_lower c)

theorem upChar_ne_space (c : Char) (h : c ≠ ' ') : upChar c ≠ ' ' := by
  have h1 := upChar_toNat c
  intro hc
  rw [hc] at h1
  have hsp : (' ').toNat = 32 := rfl
  rw [hsp] at h1
  by_cases hr : 97 ≤ c.toNat ∧ c.toNat ≤ 122
  · rw [if_pos hr] at h1
    omega
  · rw [if_neg hr] at h1
    exact h (char_eq_of_toNat_eq (by rw [← h1]; rfl))

theorem fmtChar_ne_space (c : Char) : fmtChar c ≠ ' ' := by
  show upChar (if c = ' ' then '_' else c) ≠ ' '
  by_cases h : c = ' '
  · rw [if_pos h]
    decide
  · rw [if_neg h]
    exact upChar_ne_space c h

theorem fmtChar_idem (c : Char) : fmtChar (fmtChar c) = fmtChar c := by
  have h := fmtChar_ne_space c
  show upChar (if fmtChar c = ' ' then '_' else fmtChar c) = fmtChar c
  rw [if_neg h]
  exact upChar_idem _

theorem column_format_data (s : String) : (column_format s).data = s.data.map fmtChar := rfl

theorem column_format_idem (s : String) :
    column_format (column_format s) = column_format s := by
  apply String.ext
  show (s.data.map fmtChar).map fmtChar = s.data.map fmtChar
  rw [List.map_map]
  exact List.map_congr_left (fun c _ => fmtChar_idem c)

theorem column_format_ne_empty {s : String} (h : s ≠ "") : column_format s ≠ "" := by
  intro hc
  apply h
  apply String.ext
  have h2 : s.data.map fmtChar = [] := congrArg String.data hc
  have h3 : s.data = [] := List.map_eq_nil_iff.mp h2
  simpa using h3

/-! ### Collection helpers -/

/-- De-duplication keeping first occurrences, as performed by building a
Python `dict` keyed by the listed names (`{column: ... for column in columns}`
in `validate_columns`) or, up to an unspecified order, by `list(set(...))`
at datatools.py line 158. -/
def pyDedupAux : List String → List String → List String
  | _, [] => []
  | seen, x :: xs =>
      if x ∈ seen then pyDedupAux seen xs else x :: pyDedupAux (x :: seen) xs

def pyDedup (l : List String) : List String :=
  pyDedupAux [] l

theorem mem_pyDedupAux {a : String} :
    ∀ {l seen : List String}, a ∈ pyDedupAux seen l ↔ a ∈ l ∧ a ∉ seen := by
  intro l
  induction l with
  | nil => intro seen; simp [pyDedupAux]
  | cons x xs ih =>
    intro seen
    unfold pyDedupAux
    by_cases hx : x ∈ seen
    · rw [if_pos hx, ih]
      constructor
      · rintro ⟨h1, h2⟩
        exact ⟨List.mem_cons_of_mem _ h1, h2⟩
      · rintro ⟨h1, h2⟩
        rcases List.mem_cons.mp h1 with h | h
        · exact absurd (h ▸ hx) h2
        · exact ⟨h, h2⟩
    · rw [if_neg hx]
      by_cases hax : a = x
      · subst hax
        simp [hx]
      · simp only [List.mem_cons, hax, false_or]
        rw [ih]
        constructor
        · rintro ⟨h1, h2⟩
          exact ⟨h1, fun hs => h2 (List.mem_cons_of_mem _ hs)⟩
        · rintro ⟨h1, h2⟩
          refine ⟨h1, fun hs => ?_⟩
          rcases List.mem_cons.mp hs with h | h
          · exact hax h
          · exact h2 h

theorem mem_pyDedup {a : String} {l : List String} : a ∈ pyDedup l ↔ a ∈ l := by
  unfold pyDedup
  rw [mem_pyDedupAux]
  simp

/-! ### Data model

Pandas values appearing in asset tables: datetimes (modelled as `Nat`
timestamps) and numbers (modelled as `Rat`). -/

inductive Cell where
  | dt (d : Nat)
  | num (q : Rat)
deriving DecidableEq, Repr

/-- A pandas `DataFrame`: named columns over rows of cells.  (Only the
features the repository uses are modelled.) -/
structure Frame where
  cols : List String
  rows : List (List Cell)
deriving DecidableEq, Repr

/-- The error conditions raised by the repository (the spec's
`MissingData`, `InvalidInput`, `Duplicate` and `NotFound` kinds, plus the
Python `TypeError` that dynamic operations can raise). -/
inductive Err where
  | missingData (cols : List String)
  | invalidInput
  | duplication (name : String)
  | typeError
  | notFound
deriving DecidableEq, Repr

/-! ### `AssetData.validate_columns` (datatools.py lines 205-267)

`required`/`optional` arrive as lists of column names (the dict form is
unused by the shipped pipeline); `to_dict` formats them and builds a dict,
i.e. de-duplicates keeping first occurrences.  The satisfied/unsatisfied
check then raises `ValueError` naming every missing required column, and
finally every column named in neither spec is dropped. -/

def to_dict (columns : List String) : List String :=
  pyDedup (columns.map column_format)

/-- The required columns found missing from the table
(`unsatisfied` at lines 248-249). -/
def unsatisfied_columns (data : Frame) (required : List String) : List String :=
  (to_dict required).filter (fun c => !(data.cols.contains c))

/-- Whether a column survives the dropping loop at lines 263-265
(`column in list(required) + list(optional)`). -/
def keep_column (required optional : List String) (c : String) : Bool :=
  (to_dict required ++ to_dict optional).contains c

def validate_columns (data : Frame) (required optional : List String) :
    Except Err Frame :=
  if (unsatisfied_columns data required).isEmpty then
    Except.ok
      { cols := data.cols.filter (keep_column required optional)
        rows := data.rows.map (fun row =>
          ((data.cols.zip row).filter
            (fun p => keep_column required optional p.1)).map (fun p => p.2)) }
  else
    Except.error (Err.missingData (unsatisfied_columns data required))

/-! ### `AssetData.__init__`: open/close resolution (datatools.py lines 119-142) -/

/-- Outcome of the open/close resolution: the resolved open and close
column names and the `single_valued` flag. -/
structure OCRes where
  open_value : String
  close_value : String
  single_valued : Bool
deriving DecidableEq, Repr

/-- Source line 120: `open_value = "OPEN" if ("OPEN" in data.columns and not open_value) else open_value`.
The empty string models a falsy (unset) name. -/
def default_open (cols : List String) (open_value : String) : String :=
  if cols.contains "OPEN" ∧ open_value = "" then "OPEN" else open_value

/-- Source line 121: the same defaulting for `close_value`. -/
def default_close (cols : List String) (close_value : String) : String :=
  if cols.contains "CLOSE" ∧ close_value = "" then "CLOSE" else close_value

/-- Source lines 124-142: broadcast close to open (or open to close) when only
one is provided, fail when neither is, format both when both are. -/
def resolve_open_close (close_value open_value : String) : Except Err OCRes :=
  if close_value ≠ "" ∧ open_value = "" then
    let c := column_format close_value
    Except.ok { open_value := c, close_value := c, single_valued := true }
  else if open_value ≠ "" ∧ close_value = "" then
    let o := column_format open_value
    Except.ok { open_value := o, close_value := o, single_valued := true }
  else if close_value = "" ∨ open_value = "" then
    Except.error Err.invalidInput
  else
    Except.ok
      { open_value := column_format open_value
        close_value := column_format close_value
        single_valued := false }

/-! ### `AssetData.__init__`: required-column assembly (datatools.py lines 148-158) -/

/-- Prepend the resolved close name, then the resolved open name, then
`DATE`, to the required list, and de-duplicate (`list(set(...))`,
modelled by first-occurrence de-duplication; the spec leaves the order
unspecified). -/
def assemble_required (open_value close_value : String) (required : List String) :
    List String :=
  pyDedup ("DATE" ::
    ((if open_value ≠ "" then [open_value] else []) ++
     (if close_value ≠ "" then [close_value] else []) ++ required))

/-! ### `AssetData.__init__`: finalization (datatools.py lines 167-169)

`data = data.set_index(pd.DatetimeIndex(data["DATE"]))` followed by
`data.drop("DATE", axis=1, inplace=True)`: the `DATE` column becomes the
datetime index and is removed.  Selecting `data["DATE"]` requires exactly
one `DATE` column (a duplicated label yields a sub-frame, which
`pd.DatetimeIndex` rejects), and every entry must be a datetime. -/

def date_col_idx (f : Frame) : Nat :=
  f.cols.findIdx (fun c => decide (c = "DATE"))

/-- Embedding of `pd.DatetimeIndex(data["DATE"])`: every entry of the selected column
must be a datetime. -/
def date_index_of (j : Nat) : List (List Cell) → Option (List Nat)
  | [] => some []
  | row :: rows =>
      match row[j]? with
      | some (Cell.dt d) =>
          match date_index_of j rows with
          | some idx => some (d :: idx)
          | none => none
      | _ => none

def set_date_index (f : Frame) : Except Err (List Nat × Frame) :=
  if (f.cols.filter (fun c => decide (c = "DATE"))).length = 1 then
    match date_index_of (date_col_idx f) f.rows with
    | some idx =>
        Except.ok (idx, { cols := f.cols.eraseIdx (date_col_idx f)
                          rows := f.rows.map (fun row => row.eraseIdx (date_col_idx f)) })
    | none => Except.error Err.invalidInput
  else
    Except.error Err.invalidInput

/-! ### `AssetData.__init__` on a numeric input (datatools.py lines 77-171)

The constructor's configuration (required/optional column specs and the
configured close/open column names) comes from
`asset_type.get_settings(unpack=True)`.  `get_settings` is not part of the
two shipped source files; the configuration tuple is modelled from the
spec ("a declaring asset type supplying configuration: required-column
spec, optional-column spec, the name to treat as the close-value column,
the name to treat as the open-value column").  An empty string models a
falsy (unconfigured) name.

For a numeric input `v` (line 90-94) the constructor synthesizes
`[[datetime.today()] + [v] * (len(required) + 1)]` with columns
`["DATE", close_value or "CLOSE"] + required`; the resulting `DataFrame`
has a default integer index, so the datetime-index branch (lines 109-112)
does not fire; `pd.read_table` on a `DataFrame` raises and is swallowed
(lines 102-106). -/

/-- Source line 92: `close_value = close_value if close_value else "CLOSE"`. -/
def numeric_close (close0 : String) : String :=
  if close0 = "" then "CLOSE" else close0

/-- Source line 93: `required = ["DATE", close_value] + required` (the required
list was formatted at line 83). -/
def numeric_required (required0 : List String) (close0 : String) : List String :=
  "DATE" :: numeric_close close0 :: required0.map column_format

/-- Source lines 91-94: the synthesized single-row frame
`[[datetime.today()] + [data] * (len(required) + 1)]`. -/
def numeric_frame0 (required0 : List String) (close0 : String)
    (today : Nat) (v : Rat) : Frame :=
  { cols := numeric_required required0 close0
    rows := [Cell.dt today ::
      List.replicate ((required0.map column_format).length + 1) (Cell.num v)] }

/-- Source line 117: the synthesized frame with formatted column names. -/
def numeric_frame1 (required0 : List String) (close0 : String)
    (today : Nat) (v : Rat) : Frame :=
  { cols := (numeric_frame0 required0 close0 today v).cols.map column_format
    rows := (numeric_frame0 required0 close0 today v).rows }

/-- The whole `AssetData` produced from a numeric input. -/
structure AssetDataResult where
  index : List Nat
  cols : List String
  rows : List (List Cell)
  open_value : String
  close_value : String
  single_valued : Bool
deriving DecidableEq, Repr

def assetdata_init_numeric (required0 optional : List String)
    (close0 open0 : String) (today : Nat) (v : Rat) :
    Except Err AssetDataResult :=
  -- lines 120-142: defaulting against the frame's columns, then resolution
  match resolve_open_close
      (default_close (numeric_frame1 required0 close0 today v).cols
        (numeric_close close0))
      (default_open (numeric_frame1 required0 close0 today v).cols open0) with
  | Except.error e => Except.error e
  | Except.ok oc =>
    -- lines 148-162: required-column assembly and the defensive re-check
    if oc.open_value ∈ assemble_required oc.open_value oc.close_value
          (numeric_required required0 close0)
        ∧ oc.close_value ∈ assemble_required oc.open_value oc.close_value
          (numeric_required required0 close0) then
      match validate_columns (numeric_frame1 required0 close0 today v)
          (assemble_required oc.open_value oc.close_value
            (numeric_required required0 close0)) optional with
      | Except.error e => Except.error e
      | Except.ok frame2 =>
        match set_date_index frame2 with
        | Except.error e => Except.error e
        | Except.ok (idx, frame3) =>
          Except.ok { index := idx
                      cols := frame3.cols
                      rows := frame3.rows
                      open_value := oc.open_value
                      close_value := oc.close_value
                      single_valued := oc.single_valued }
    else
      Except.error Err.invalidInput

/-! ### `AssetData.__bool__` and the absent-input state (datatools.py lines 86-87, 173-189)

When the raw data value is `None`, `__init__` returns before `self.data`
is ever assigned.  Every later access to `self.data` (in particular the
one inside `__bool__`) then falls into `__getattr__`, whose body again
reads `self.data`, recursing without bound.  The recursion is embedded
with explicit fuel: `none` is the outcome of exhausting any finite
recursion depth (Python's `RecursionError`). -/

structure AssetDataObj where
  /-- The `data` instance attribute; `none` models the attribute never
  having been assigned (the `data is None` early return at line 86-87). -/
  data : Option Frame
deriving DecidableEq, Repr

def getattr_data : Nat → AssetDataObj → Option Frame
  | 0, _ => none
  | n + 1, o =>
    match o.data with
    | some f => some f
    | none => getattr_data n o

/-- Embedding of `__bool__` (lines 188-189): `not self.data.empty`.  The lookup of
`self.data` goes through normal attribute lookup; `none` models a
`RecursionError` instead of a boolean result. -/
def assetdata_bool (fuel : Nat) (o : AssetDataObj) : Option Bool :=
  (getattr_data fuel o).map (fun f => !f.rows.isEmpty)

/-! ### The type registry (`asset.py` lines 11-71)

`TYPES` is a runtime-extensible enumeration whose members pair a tag name
with a weak instance map; it starts with the single member `UNDEFINED`.
The registry is modelled by its ordered list of member names.
`Asset.__init_subclass__` is modelled on a description of the declaring
class: its name, whether `ABC` or `Hidden` occurs in its *immediate*
parent list (`cls.__bases__`), and the tag it inherits from an ancestor,
if any (`getattr(cls, 'type', None)`). -/

/-- Python `str.upper()` as used by `cls.__name__.upper()` at asset.py line 65. -/
def pyUpper (s : String) : String :=
  ⟨s.data.map upChar⟩

structure ClassDecl where
  name : String
  direct_abc : Bool
  direct_hidden : Bool
  inherited : Option String
deriving DecidableEq, Repr

/-- Embedding of `Asset.__init_subclass__` (asset.py lines 64-71): returns the updated
member-name list of `TYPES` and the tag assigned to the new class. -/
def init_subclass (registry : List String) (c : ClassDecl) :
    List String × String :=
  if ¬ c.direct_abc ∧ ¬ c.direct_hidden then
    (if pyUpper c.name ∈ registry then registry else registry ++ [pyUpper c.name],
     pyUpper c.name)
  else
    -- `cls.type` was not assigned; `getattr(cls, 'type', None)` finds an
    -- inherited tag or falls back to `TYPES.UNDEFINED`.
    (registry, c.inherited.getD "UNDEFINED")

/-! ### Instance registration inside `Asset.__init__` (asset.py lines 82-90)

`self.type.instances` is a `weakref.WeakValueDictionary`.  Asset objects
are identified by a numeric id.  Two pieces of Python/CPython semantics
are embedded explicitly:

* `WeakValueDictionary.__setitem__` creates a weak reference to the
  value; CPython `list` objects do not support weak references, so
  storing a list (`self.type.instances[name] = [self]`) raises
  `TypeError`.
* `collection += x` on a list is `collection.extend(x)`, which iterates
  `x`; an `Asset` instance is not iterable (and defines no `__add__`),
  so `self.type.instances[name] += self` raises `TypeError` whatever the
  stored value is. -/

inductive Entry where
  | single (a : Nat)
  | coll (l : List Nat)
deriving DecidableEq, Repr

/-- Embedding of `WeakValueDictionary.__setitem__`. -/
def weak_setitem (m : List (String × Entry)) (k : String) (v : Entry) :
    Except Err (List (String × Entry)) :=
  match v with
  | Entry.coll _ => Except.error Err.typeError
  | Entry.single _ => Except.ok ((m.filter (fun p => p.1 ≠ k)) ++ [(k, v)])

/-- Embedding of `stored += self` where `self` is an asset (not iterable, no
`__add__`/`__radd__`): always a `TypeError`. -/
def py_iadd_asset (_stored : Entry) (_selfId : Nat) : Except Err Entry :=
  Except.error Err.typeError

/-- The uniqueness check and registration block of `Asset.__init__`
(asset.py lines 82-90).  The duplication error is built from the already
assigned `self.name` (the error message reads `asset.name`). -/
def register_instance (m : List (String × Entry)) (name : String)
    (selfId : Nat) (allow_duplicates : Bool) :
    Except Err (List (String × Entry)) :=
  match m.lookup name with
  | none =>
      if allow_duplicates then
        weak_setitem m name (Entry.coll [selfId])
      else
        weak_setitem m name (Entry.single selfId)
  | some stored =>
      if allow_duplicates then
        match py_iadd_asset stored selfId with
        | Except.error e => Except.error e
        | Except.ok v => weak_setitem m name v
      else
        Except.error (Err.duplication name)

/-! ### `Asset.__init__` opening steps (asset.py lines 74-90) -/

/-- The raw `data` argument of `Asset.__init__`. -/
inductive PyData where
  | absent
  | num (q : Rat)
  | table (f : Frame)
deriving DecidableEq, Repr

/-- Modelled from the spec: `is_numeric` lives in the `constants` module,
which is not among the shipped source files; the spec reads "the numeric
value if `data` itself was numeric, else zero". -/
def is_numeric : PyData → Bool
  | PyData.num _ => true
  | _ => false

def numeric_value : PyData → Rat
  | PyData.num q => q
  | _ => 0

/-- Modelled from the spec: the "canonical close-column marker"
(`datatools.AssetData.COLUMNS.CLOSE`), a member of the retired
enumeration-keyed column scheme that `Asset.__init__` still references. -/
inductive ColMarker where
  | CLOSE
deriving DecidableEq, Repr

/-- The attributes assigned by the first three statements of
`Asset.__init__` (asset.py lines 77-79). -/
structure InitFields where
  name : String
  price : Rat
  valuate_on : ColMarker
deriving DecidableEq, Repr

/-- Asset.py lines 77-90: assign `name`, `price` and `valuate_on`, then
run the uniqueness check against the owning type's instance map.  The
completed field assignments are returned alongside the check's outcome;
the check consumes the already-assigned fields (the duplication error
message is built from `self.name`). -/
def asset_init_steps (m : List (String × Entry)) (name : String)
    (selfId : Nat) (data : PyData) (allow_duplicates : Bool) :
    InitFields × Except Err (List (String × Entry)) :=
  let fields : InitFields :=
    { name := name
      price := if is_numeric data then numeric_value data else 0
      valuate_on := ColMarker.CLOSE }
  (fields, register_instance m fields.name selfId allow_duplicates)

/-! ### Valuation (`asset.py` lines 128-156)

The asset's dataset is modelled as its datetime-indexed table: a list of
(date, row) pairs, each row mapping column names to numbers.  A price is
either a number or pandas' `NaN` (which `DataFrame.asof` produces when no
row lies at or before the requested date). -/

inductive PdVal where
  | na
  | num (q : Rat)
deriving DecidableEq, Repr

structure AssetState where
  name : String
  date : Nat
  price : PdVal
  /-- The column read by `_data_valuate` (`self.valuate_on`). -/
  valuate_on : String
  data : List (Nat × List (String × Rat))
deriving DecidableEq, Repr

/-- The `date` argument accepted by `valuate`/`_normalize_date_input`:
a datetime, an ISO-format string, or a value of any other type. -/
inductive DateArg where
  | dt (d : Nat)
  | iso (s : String)
  | other
deriving DecidableEq, Repr

/-- Embedding of `datetime.fromisoformat`, a standard-library boundary: some strings
parse to a datetime, the rest raise.  The embedding abstracts the parse
as numeral parsing; no claim depends on which strings parse. -/
def fromisoformat (s : String) : Option Nat :=
  s.toNat?

/-- Embedding of `Asset._normalize_date_input` (asset.py lines 145-156). -/
def normalize_date_input (s : AssetState) : Option DateArg → Except Err Nat
  | none => Except.ok s.date
  | some (DateArg.dt d) => Except.ok d
  | some (DateArg.iso str) =>
      match fromisoformat str with
      | some d => Except.ok d
      | none => Except.error Err.invalidInput
  | some DateArg.other => Except.error Err.typeError

/-- Embedding of `DataFrame.asof` (pandas boundary, documented semantics): the last
row whose index is at or before `d`; when every row lies after `d`, a
row of `NaN` values indexed by the frame's columns. -/
def frame_asof (rows : List (Nat × List (String × Rat))) (d : Nat) :
    List (String × PdVal) :=
  match (rows.filter (fun r => decide (r.1 ≤ d))).getLast? with
  | some r => r.2.map (fun p => (p.1, PdVal.num p.2))
  | none =>
      match rows.head? with
      | some r0 => r0.2.map (fun p => (p.1, PdVal.na))
      | none => []

/-- Embedding of `Asset._data_valuate` at an already-normalized date (asset.py lines
135-139): `data = self.data.asof(date); self.price = data[self.valuate_on];
return self.price`.  A missing key in the returned series is a `KeyError`. -/
def data_valuate_at (s : AssetState) (d : Nat) : Except Err (PdVal × AssetState) :=
  match (frame_asof s.data d).lookup s.valuate_on with
  | some v => Except.ok (v, { s with price := v })
  | none => Except.error Err.notFound

/-- Embedding of `Asset.valuate` (asset.py lines 128-133): normalize the date, then
dispatch on dataset truthiness to `_data_valuate` (which re-normalizes a
value that is already a datetime) or to the subclass formula `_valuate`
(whose base body returns `self.price`, line 143). -/
def valuate (s : AssetState) (arg : Option DateArg) : Except Err (PdVal × AssetState) :=
  match normalize_date_input s arg with
  | Except.error e => Except.error e
  | Except.ok d =>
      if s.data.isEmpty then
        Except.ok (s.price, s)
      else
        data_valuate_at s d

/-! ### Shared helper lemmas -/

theorem map_column_format_idem (l : List String) :
    (l.map column_format).map column_format = l.map column_format := by
  rw [List.map_map]
  exact List.map_congr_left (fun s _ => column_format_idem s)

theorem column_format_DATE : column_format "DATE" = "DATE" := rfl

theorem column_format_OPEN : column_format "OPEN" = "OPEN" := rfl

theorem lookup_map_na (l : List (String × Rat)) (k : String)
    (hk : k ∈ l.map Prod.fst) :
    (l.map (fun p => (p.1, PdVal.na))).lookup k = some PdVal.na := by
  induction l with
  | nil => simp at hk
  | cons a t ih =>
    by_cases h : k = a.1
    · simp [List.lookup, h]
    · have hb : (k == a.1) = false := by simpa using h
      simp only [List.map_cons, List.lookup, hb]
      apply ih
      simp only [List.map_cons, List.mem_cons] at hk
      exact hk.resolve_left h

theorem getLast_filter {α} (p : α → Bool) (l : List α) (last : α)
    (hl : l.getLast? = some last) (hp : p last = true) :
    (l.filter p).getLast? = some last := by
  rw [← List.head?_reverse] at hl
  rw [← List.head?_reverse, ← List.filter_reverse]
  cases hrev : l.reverse with
  | nil => rw [hrev] at hl; simp at hl
  | cons x t =>
    rw [hrev] at hl
    simp only [List.head?_cons, Option.some.injEq] at hl
    subst hl
    simp [List.filter_cons, hp]

/-! ### Claim theorems -/

/-- C1: `Asset.__init__`'s uniqueness check (asset.py lines 82-90).
With duplicates disallowed, a second construction under a registered name
does raise `AssetDuplicationError`; but the duplicates-allowed paths are
broken: `self.type.instances[name] = [self]` stores a list in a
`WeakValueDictionary` (lists are not weakly referenceable: `TypeError`),
and `self.type.instances[name] += self` extends the stored value with a
non-iterable asset (`TypeError`), so the second instance is never
appended. -/
theorem c1_duplicate_registration_eval :
    register_instance [] "A" 1 false = Except.ok [("A", Entry.single 1)]
    ∧ register_instance [("A", Entry.single 1)] "A" 2 false
        = Except.error (Err.duplication "A")
    ∧ register_instance [("A", Entry.single 1)] "A" 2 true
        = Except.error Err.typeError
    ∧ register_instance [] "A" 1 true = Except.error Err.typeError :=
  ⟨rfl, rfl, rfl, rfl⟩

theorem mem_unsatisfied (data : Frame) (required : List String) (c : String) :
    c ∈ unsatisfied_columns data required
      ↔ c ∈ required.map column_format ∧ c ∉ data.cols := by
  unfold unsatisfied_columns to_dict
  rw [List.mem_filter, mem_pyDedup]
  constructor
  · rintro ⟨h1, h2⟩
    refine ⟨h1, fun hc => ?_⟩
    rw [Bool.not_eq_true', ← Bool.not_eq_true] at h2
    exact h2 (List.elem_iff.mpr hc)
  · rintro ⟨h1, h2⟩
    refine ⟨h1, ?_⟩
    rw [Bool.not_eq_true', ← Bool.not_eq_true]
    exact fun hc => h2 (List.elem_iff.mp hc)

theorem numeric_close_ne (close0 : String) : numeric_close close0 ≠ "" := by
  unfold numeric_close
  by_cases h : close0 = ""
  · rw [if_pos h]; decide
  · rw [if_neg h]; exact h

theorem numeric_frame1_cols (required0 : List String) (close0 : String)
    (today : Nat) (v : Rat) :
    (numeric_frame1 required0 close0 today v).cols
      = "DATE" :: column_format (numeric_close close0)
          :: required0.map column_format := by
  show ("DATE" :: numeric_close close0 :: required0.map column_format).map column_format
    = _
  simp only [List.map_cons, column_format_DATE]
  rw [map_column_format_idem]

theorem numeric_frame1_rows (required0 : List String) (close0 : String)
    (today : Nat) (v : Rat) :
    (numeric_frame1 required0 close0 today v).rows
      = [Cell.dt today :: List.replicate (required0.length + 1) (Cell.num v)] := by
  show [Cell.dt today ::
      List.replicate ((required0.map column_format).length + 1) (Cell.num v)] = _
  rw [List.length_map]

theorem zip_filter_map_self (p : String → Bool) :
    ∀ (cols : List String) (row : List Cell), cols.length = row.length →
      (∀ c ∈ cols, p c = true) →
      ((cols.zip row).filter (fun q => p q.1)).map (fun q => q.2) = row := by
  intro cols
  induction cols with
  | nil =>
    intro row hlen _
    cases row with
    | nil => rfl
    | cons x xs => simp at hlen
  | cons c cs ih =>
    intro row hlen hall
    cases row with
    | nil => simp at hlen
    | cons x xs =>
      have hc : p c = true := hall c (by simp)
      simp only [List.zip_cons_cons, List.filter_cons, hc, if_true, List.map_cons]
      rw [ih xs (by simpa using hlen) (fun a ha => hall a (List.mem_cons_of_mem _ ha))]

/-- When every (formatted) required name is a column and every column is
some required name's format, `validate_columns` is the identity. -/
theorem validate_ok_self (data : Frame) (required optional : List String)
    (h1 : ∀ y ∈ required, column_format y ∈ data.cols)
    (h2 : ∀ c ∈ data.cols, ∃ y ∈ required, column_format y = c)
    (h3 : ∀ row ∈ data.rows, data.cols.length = row.length) :
    validate_columns data required optional = Except.ok data := by
  have hnil : unsatisfied_columns data required = [] := by
    unfold unsatisfied_columns
    rw [List.filter_eq_nil_iff]
    intro a ha
    have ha' : a ∈ required.map column_format := by
      unfold to_dict at ha
      exact mem_pyDedup.mp ha
    rcases List.mem_map.mp ha' with ⟨y, hy, hya⟩
    simp only [Bool.not_eq_true', Bool.not_eq_false]
    exact List.elem_iff.mpr (hya ▸ h1 y hy)
  have hkeep : ∀ c ∈ data.cols, keep_column required optional c = true := by
    intro c hc
    rcases h2 c hc with ⟨y, hy, hyc⟩
    unfold keep_column
    apply List.elem_iff.mpr
    apply List.mem_append_left
    unfold to_dict
    rw [mem_pyDedup]
    exact hyc ▸ List.mem_map_of_mem column_format hy
  have hrows : data.rows.map (fun row =>
      ((data.cols.zip row).filter
        (fun p => keep_column required optional p.1)).map (fun p => p.2))
      = data.rows := by
    have hid : ∀ row ∈ data.rows,
        ((data.cols.zip row).filter
          (fun p => keep_column required optional p.1)).map (fun p => p.2) = row :=
      fun row hrow =>
        zip_filter_map_self _ data.cols row (h3 row hrow) hkeep
    rw [List.map_congr_left hid]
    exact List.map_id data.rows
  unfold validate_columns
  rw [hnil]
  simp only [List.isEmpty_nil, if_true]
  rw [List.filter_eq_self.mpr hkeep, hrows]

theorem set_date_index_cons (rest : List String) (t : Nat) (tail : List Cell)
    (h : "DATE" ∉ rest) :
    set_date_index ⟨"DATE" :: rest, [Cell.dt t :: tail]⟩
      = Except.ok ([t], ⟨rest, [tail]⟩) := by
  have hrest : rest.filter (fun c => decide (c = "DATE")) = [] :=
    List.filter_eq_nil_iff.mpr
      (fun a ha hd => h ((of_decide_eq_true hd) ▸ ha))
  unfold set_date_index date_col_idx
  simp [List.filter_cons, List.findIdx_cons, hrest, date_index_of,
    List.getElem?_cons_zero]

/-- C2 counterexample: with an open-column name (`"OPEN"`) configured for
the asset type and an empty required list, constructing an `AssetData`
from the numeric scalar 1 yields no table at all: the synthesized frame
carries only `DATE` and the close column, so validation fails with
`MissingData` naming `OPEN`. -/
theorem c2_open_config_counterexample :
    assetdata_init_numeric [] [] "" "OPEN" 0 1
      = Except.error (Err.missingData ["OPEN"]) := rfl

/-- Shared final stage for the numeric-scalar construction: once the
open/close resolution is known to produce `op` (a formatted name present
in the synthesized columns) and the formatted close name, construction
succeeds with the single-row table. -/
theorem c2_numeric_result (required0 optional : List String) (close0 : String)
    (today : Nat) (v : Rat)
    (hreq : "DATE" ∉ required0.map column_format)
    (hclose : column_format (numeric_close close0) ≠ "DATE")
    (op : String) (sv : Bool)
    (hop_ne : op ≠ "")
    (hop_fmt : column_format op = op)
    (hop_in : op ∈ (numeric_frame1 required0 close0 today v).cols)
    (hres : resolve_open_close
        (default_close (numeric_frame1 required0 close0 today v).cols
          (numeric_close close0))
        (default_open (numeric_frame1 required0 close0 today v).cols "")
        = Except.ok ⟨op, column_format (numeric_close close0), sv⟩) :
    assetdata_init_numeric required0 optional close0 "" today v
      = Except.ok
          { index := [today]
            cols := column_format (numeric_close close0)
                      :: required0.map column_format
            rows := [List.replicate (required0.length + 1) (Cell.num v)]
            open_value := op
            close_value := column_format (numeric_close close0)
            single_valued := sv } := by
  have hCne : column_format (numeric_close close0) ≠ "" :=
    column_format_ne_empty (numeric_close_ne close0)
  have hcols := numeric_frame1_cols required0 close0 today v
  have hassemble : assemble_required op (column_format (numeric_close close0))
      (numeric_required required0 close0)
      = pyDedup ("DATE" :: ([op] ++ [column_format (numeric_close close0)]
          ++ numeric_required required0 close0)) := by
    unfold assemble_required
    rw [if_pos hop_ne, if_pos hCne]
  have hmem_op : op ∈ assemble_required op (column_format (numeric_close close0))
      (numeric_required required0 close0) := by
    rw [hassemble, mem_pyDedup]
    simp
  have hmem_C : column_format (numeric_close close0)
      ∈ assemble_required op (column_format (numeric_close close0))
        (numeric_required required0 close0) := by
    rw [hassemble, mem_pyDedup]
    simp
  have h1 : ∀ y ∈ assemble_required op (column_format (numeric_close close0))
      (numeric_required required0 close0),
      column_format y ∈ (numeric_frame1 required0 close0 today v).cols := by
    intro y hy
    rw [hassemble, mem_pyDedup] at hy
    rw [hcols]
    simp only [List.cons_append, List.nil_append, List.mem_cons] at hy
    rcases hy with h | h | h | h
    · subst h
      rw [column_format_DATE]
      simp
    · subst h
      rw [hop_fmt]
      rw [hcols] at hop_in
      exact hop_in
    · subst h
      rw [column_format_idem]
      simp
    · unfold numeric_required at h
      rcases List.mem_cons.mp h with h | h
      · subst h
        rw [column_format_DATE]
        simp
      · rcases List.mem_cons.mp h with h | h
        · subst h
          simp
        · rcases List.mem_map.mp h with ⟨y0, hy0, rfl⟩
          rw [column_format_idem]
          simp only [List.mem_cons]
          exact Or.inr (Or.inr (List.mem_map_of_mem column_format hy0))
  have h2 : ∀ c ∈ (numeric_frame1 required0 close0 today v).cols,
      ∃ y ∈ assemble_required op (column_format (numeric_close close0))
        (numeric_required required0 close0), column_format y = c := by
    intro c hc
    rw [hcols] at hc
    rcases List.mem_cons.mp hc with h | h
    · refine ⟨"DATE", ?_, by rw [column_format_DATE, h]⟩
      rw [hassemble, mem_pyDedup]
      simp
    · rcases List.mem_cons.mp h with h | h
      · exact ⟨column_format (numeric_close close0), hmem_C,
          by rw [column_format_idem, h]⟩
      · refine ⟨c, ?_, ?_⟩
        · rw [hassemble, mem_pyDedup]
          simp only [List.cons_append, List.nil_append, List.mem_cons]
          refine Or.inr (Or.inr (Or.inr ?_))
          unfold numeric_required
          simp only [List.mem_cons]
          exact Or.inr (Or.inr h)
        · rcases List.mem_map.mp h with ⟨y0, hy0, rfl⟩
          exact column_format_idem y0
  have h3 : ∀ row ∈ (numeric_frame1 required0 close0 today v).rows,
      (numeric_frame1 required0 close0 today v).cols.length = row.length := by
    intro row hrow
    rw [numeric_frame1_rows] at hrow
    rcases List.mem_singleton.mp hrow with rfl
    rw [hcols]
    simp [List.length_replicate]
  have hval := validate_ok_self (numeric_frame1 required0 close0 today v)
      (assemble_required op (column_format (numeric_close close0))
        (numeric_required required0 close0)) optional h1 h2 h3
  have hframe : numeric_frame1 required0 close0 today v
      = ⟨"DATE" :: column_format (numeric_close close0)
            :: required0.map column_format,
         [Cell.dt today :: List.replicate (required0.length + 1) (Cell.num v)]⟩ := by
    rw [← hcols, ← numeric_frame1_rows required0 close0 today v]
  have hnotin : "DATE" ∉ column_format (numeric_close close0)
      :: required0.map column_format := by
    simp only [List.mem_cons]
    rintro (h | h)
    · exact hclose h.symm
    · exact hreq h
  have hsdi : set_date_index (numeric_frame1 required0 close0 today v)
      = Except.ok ([today],
          ⟨column_format (numeric_close close0) :: required0.map column_format,
           [List.replicate (required0.length + 1) (Cell.num v)]⟩) := by
    rw [hframe]
    exact set_date_index_cons _ _ _ hnotin
  simp only [assetdata_init_numeric, hres]
  rw [if_pos ⟨hmem_op, hmem_C⟩]
  simp only [hval, hsdi]

/-- C2 (amended): for every numeric scalar `v` and every configuration
that names no open column and in which neither the (defaulted, formatted)
close name nor any formatted required column collides with `DATE`,
construction yields a single-row table dated at construction time whose
close column (defaulting to `CLOSE`) and every other required column all
equal `v`.  (With an open column configured, construction instead fails
with `MissingData` — see the counterexample.) -/
theorem c2_numeric_scalar (required0 optional : List String) (close0 : String)
    (today : Nat) (v : Rat)
    (hreq : "DATE" ∉ required0.map column_format)
    (hclose : column_format (numeric_close close0) ≠ "DATE") :
    ∃ op sv,
      assetdata_init_numeric required0 optional close0 "" today v
        = Except.ok
            { index := [today]
              cols := column_format (numeric_close close0)
                        :: required0.map column_format
              rows := [List.replicate (required0.length + 1) (Cell.num v)]
              open_value := op
              close_value := column_format (numeric_close close0)
              single_valued := sv } := by
  have hdc : default_close (numeric_frame1 required0 close0 today v).cols
      (numeric_close close0) = numeric_close close0 := by
    unfold default_close
    rw [if_neg (fun hand => numeric_close_ne close0 hand.2)]
  by_cases hO : "OPEN" ∈ (numeric_frame1 required0 close0 today v).cols
  · refine ⟨"OPEN", false, ?_⟩
    apply c2_numeric_result required0 optional close0 today v hreq hclose "OPEN" false
      (by decide) column_format_OPEN hO
    have hdo : default_open (numeric_frame1 required0 close0 today v).cols ""
        = "OPEN" := by
      unfold default_open
      rw [if_pos ⟨List.elem_iff.mpr hO, rfl⟩]
    rw [hdc, hdo]
    unfold resolve_open_close
    rw [if_neg (fun hand => by exact absurd hand.2 (by decide)),
        if_neg (fun hand => numeric_close_ne close0 hand.2),
        if_neg (by rintro (h | h)
                   · exact numeric_close_ne close0 h
                   · exact absurd h (by decide))]
    rw [column_format_OPEN]
  · refine ⟨column_format (numeric_close close0), true, ?_⟩
    apply c2_numeric_result required0 optional close0 today v hreq hclose _ true
      (column_format_ne_empty (numeric_close_ne close0))
      (column_format_idem (numeric_close close0))
      (by rw [numeric_frame1_cols]; simp)
    have hdo : default_open (numeric_frame1 required0 close0 today v).cols ""
        = "" := by
      unfold default_open
      rw [if_neg (fun hand => hO (List.elem_iff.mp hand.1))]
    rw [hdc, hdo]
    unfold resolve_open_close
    rw [if_pos ⟨numeric_close_ne close0, rfl⟩]

/-- C2 witness: constructing from the scalar 5 with required column
`"volume"`, no configured close/open names, at date 7. -/
theorem c2_numeric_scalar_witness :
    ∃ op sv,
      assetdata_init_numeric ["volume"] ["extra"] "" "" 7 5
        = Except.ok
            { index := [7]
              cols := ["CLOSE", "VOLUME"]
              rows := [[Cell.num 5, Cell.num 5]]
              open_value := op
              close_value := "CLOSE"
              single_valued := sv } :=
  c2_numeric_scalar ["volume"] ["extra"] "" 7 5 (by decide) (by decide)

/-- C3: `AssetData.validate_columns` (datatools.py lines 247-252) raises
`MissingData` naming exactly the (formatted) required columns absent from
the table whenever at least one is absent — whatever the optional spec
and whatever extra columns are present — and raises nothing when every
required column is present. -/
theorem c3_validate_columns_missing (data : Frame) (required optional : List String) :
    ((∃ c ∈ required.map column_format, c ∉ data.cols) →
      ∃ l, validate_columns data required optional = Except.error (Err.missingData l)
        ∧ ∀ c, c ∈ l ↔ (c ∈ required.map column_format ∧ c ∉ data.cols))
    ∧ ((∀ c ∈ required.map column_format, c ∈ data.cols) →
      (validate_columns data required optional).isOk = true) := by
  constructor
  · rintro ⟨c, hc, hnc⟩
    have hmem : c ∈ unsatisfied_columns data required :=
      (mem_unsatisfied data required c).mpr ⟨hc, hnc⟩
    have hne : (unsatisfied_columns data required).isEmpty = false := by
      rcases hfe : unsatisfied_columns data required with _ | ⟨x, t⟩
      · rw [hfe] at hmem; simp at hmem
      · rfl
    refine ⟨unsatisfied_columns data required, ?_, ?_⟩
    · unfold validate_columns
      rw [hne]
      rfl
    · intro x
      exact mem_unsatisfied data required x
  · intro hall
    have hnil : unsatisfied_columns data required = [] := by
      unfold unsatisfied_columns
      rw [List.filter_eq_nil_iff]
      intro a ha
      have ha' : a ∈ required.map column_format := by
        unfold to_dict at ha
        exact (mem_pyDedup).mp ha
      simp only [Bool.not_eq_true', Bool.not_eq_false]
      exact List.elem_iff.mpr (hall a ha')
    unfold validate_columns
    rw [hnil]
    rfl

/-- C3 witness: a table with columns `DATE`, `CLOSE`, `EXTRA` against
required `["close", "volume", "vol ume"]` fails naming exactly `VOLUME`
and `VOL_UME`; with every required column present, validation succeeds. -/
theorem c3_validate_columns_missing_witness :
    (∃ l, validate_columns ⟨["DATE", "CLOSE", "EXTRA"], []⟩
        ["close", "volume", "vol ume"] ["extra"]
        = Except.error (Err.missingData l)
      ∧ "VOLUME" ∈ l ∧ "VOL_UME" ∈ l ∧ "CLOSE" ∉ l)
    ∧ (validate_columns ⟨["DATE", "CLOSE"], []⟩ ["close"] ["extra"]).isOk = true := by
  constructor
  · rcases (c3_validate_columns_missing ⟨["DATE", "CLOSE", "EXTRA"], []⟩
        ["close", "volume", "vol ume"] ["extra"]).1
        ⟨"VOLUME", by decide, by decide⟩ with ⟨l, hl, hiff⟩
    refine ⟨l, hl, (hiff "VOLUME").mpr (by decide), (hiff "VOL_UME").mpr (by decide),
      fun hc => ?_⟩
    have hcl := (hiff "CLOSE").mp hc
    revert hcl
    decide
  · exact (c3_validate_columns_missing ⟨["DATE", "CLOSE"], []⟩ ["close"] ["extra"]).2
      (by decide)

/-- C5: `Asset.__init_subclass__` (asset.py lines 64-71).  A declaration
whose immediate parent list contains `ABC` or `Hidden` never gets its own
tag (it keeps an inherited ancestor tag, or `UNDEFINED`), and the
registry is untouched; otherwise the uppercase name is registered, an
already-present member is reused rather than duplicated, and member
names stay pairwise distinct. -/
theorem c5_init_subclass (registry : List String) (c : ClassDecl) :
    ((c.direct_abc = true ∨ c.direct_hidden = true) →
        (init_subclass registry c).1 = registry
        ∧ (init_subclass registry c).2 = c.inherited.getD "UNDEFINED")
    ∧ (c.direct_abc = false → c.direct_hidden = false →
        (init_subclass registry c).2 = pyUpper c.name
        ∧ pyUpper c.name ∈ (init_subclass registry c).1
        ∧ (pyUpper c.name ∈ registry → (init_subclass registry c).1 = registry)
        ∧ (registry.Nodup → (init_subclass registry c).1.Nodup)) := by
  constructor
  · intro h
    unfold init_subclass
    have : ¬ (¬ c.direct_abc = true ∧ ¬ c.direct_hidden = true) := by
      rcases h with h | h <;> simp [h]
    rw [if_neg this]
    exact ⟨rfl, rfl⟩
  · intro ha hh
    unfold init_subclass
    rw [if_pos (by simp [ha, hh])]
    refine ⟨rfl, ?_, ?_, ?_⟩
    · by_cases hmem : pyUpper c.name ∈ registry
      · rw [if_pos hmem]; exact hmem
      · rw [if_neg hmem]; simp
    · intro hmem
      rw [if_pos hmem]
    · intro hnd
      by_cases hmem : pyUpper c.name ∈ registry
      · rw [if_pos hmem]; exact hnd
      · rw [if_neg hmem]
        exact List.Nodup.append hnd (List.nodup_singleton _)
          (fun x hx hx1 => hmem ((List.mem_singleton.mp hx1) ▸ hx))

/-- C5 witness: a hidden subclass keeps its inherited tag and leaves the
registry unchanged; re-declaring a type with the same uppercase name
reuses the member, and a fresh registration keeps the registry
duplicate-free. -/
theorem c5_init_subclass_witness :
    ((init_subclass ["UNDEFINED", "STOCK"] ⟨"Call", false, true, some "STOCK"⟩).1
        = ["UNDEFINED", "STOCK"]
      ∧ (init_subclass ["UNDEFINED", "STOCK"] ⟨"Call", false, true, some "STOCK"⟩).2
        = "STOCK")
    ∧ (init_subclass ["UNDEFINED", "STOCK"] ⟨"stock", false, false, none⟩).1
        = ["UNDEFINED", "STOCK"]
    ∧ (init_subclass ["UNDEFINED"] ⟨"Stock", false, false, none⟩).1.Nodup :=
  ⟨(c5_init_subclass ["UNDEFINED", "STOCK"] ⟨"Call", false, true, some "STOCK"⟩).1
      (Or.inr rfl),
   ((c5_init_subclass ["UNDEFINED", "STOCK"] ⟨"stock", false, false, none⟩).2
      rfl rfl).2.2.1 (by decide),
   ((c5_init_subclass ["UNDEFINED"] ⟨"Stock", false, false, none⟩).2
      rfl rfl).2.2.2 (by decide)⟩

/-- C6: the first three statements of `Asset.__init__` (asset.py lines
77-79) assign `name`, the provisional `price` (the numeric value of
`data` when numeric, else zero) and the canonical close-column marker as
`valuate_on`; the uniqueness check then runs against the completed
assignments. -/
theorem c6_init_assignment_order (m : List (String × Entry)) (name : String)
    (selfId : Nat) (data : PyData) (allow_duplicates : Bool) :
    (asset_init_steps m name selfId data allow_duplicates).1
      = { name := name
          price := if is_numeric data then numeric_value data else 0
          valuate_on := ColMarker.CLOSE }
    ∧ (asset_init_steps m name selfId data allow_duplicates).2
      = register_instance m
          ((asset_init_steps m name selfId data allow_duplicates).1).name
          selfId allow_duplicates :=
  ⟨rfl, rfl⟩

/-- C7: `AssetData.__bool__` (datatools.py lines 188-189) on a dataset
built from an absent raw-data value.  `__init__` returned at line 86-87
before assigning `self.data`, so the `self.data` access inside `__bool__`
recurses through `__getattr__` without bound — no recursion depth
suffices to produce a boolean (a `RecursionError`), so the object never
tests falsy.  On a dataset whose table was assigned, truthiness is table
non-emptiness. -/
theorem c7_bool_eval :
    (∀ fuel : Nat, assetdata_bool fuel { data := none } = none)
    ∧ (∀ (fuel : Nat) (f : Frame),
        assetdata_bool (fuel + 1) { data := some f } = some (!f.rows.isEmpty)) := by
  constructor
  · intro fuel
    induction fuel with
    | zero => rfl
    | succ n ih =>
      unfold assetdata_bool at ih ⊢
      unfold getattr_data
      exact ih
  · intro fuel f
    rfl

/-- C8: open/close resolution (datatools.py lines 124-132).  When after
defaulting only the close name is set, it is formatted, the open name is
set equal to it and the dataset is marked single-valued; symmetrically
when only the open name is set. -/
theorem c8_single_value_broadcast (cols : List String) (close0 open0 : String) :
    ((default_close cols close0 ≠ "" ∧ default_open cols open0 = "") →
      resolve_open_close (default_close cols close0) (default_open cols open0)
        = Except.ok
            { open_value := column_format (default_close cols close0)
              close_value := column_format (default_close cols close0)
              single_valued := true })
    ∧ ((default_open cols open0 ≠ "" ∧ default_close cols close0 = "") →
      resolve_open_close (default_close cols close0) (default_open cols open0)
        = Except.ok
            { open_value := column_format (default_open cols open0)
              close_value := column_format (default_open cols open0)
              single_valued := true }) := by
  constructor
  · intro h
    unfold resolve_open_close
    rw [if_pos h]
  · rintro ⟨ho, hc⟩
    unfold resolve_open_close
    rw [if_neg (by intro hcon; exact hcon.1 hc), if_pos ⟨ho, hc⟩]

/-- C8 witness: with only a close name `"spot price"` configured,
resolution yields the single-valued dataset with open = close =
`"SPOT_PRICE"`. -/
theorem c8_single_value_broadcast_witness :
    resolve_open_close (default_close [] "spot price") (default_open [] "")
      = Except.ok
          { open_value := "SPOT_PRICE"
            close_value := "SPOT_PRICE"
            single_valued := true } :=
  (c8_single_value_broadcast [] "spot price" "").1 (by decide)

/-- C9: `Asset.valuate` (asset.py lines 128-133) with no date argument
behaves identically — result and post-state — to `valuate` applied to
the asset's own stored date, because `_normalize_date_input` maps an
absent date to `self.date` and passes a datetime through. -/
theorem c9_valuate_default_date (s : AssetState) :
    valuate s none = valuate s (some (DateArg.dt s.date)) := rfl

/-- C10: the defensive re-check (datatools.py lines 161-162).  Whenever
the open/close resolution succeeded, both resolved names are members of
the assembled required set, so the check's error branch is unreachable. -/
theorem c10_defensive_check (close_value open_value : String) (oc : OCRes)
    (h : resolve_open_close close_value open_value = Except.ok oc)
    (required : List String) :
    oc.open_value ∈ assemble_required oc.open_value oc.close_value required
    ∧ oc.close_value ∈ assemble_required oc.open_value oc.close_value required := by
  have hne : oc.open_value ≠ "" ∧ oc.close_value ≠ "" := by
    unfold resolve_open_close at h
    split at h
    · next hc =>
      rw [Except.ok.injEq] at h
      subst h
      exact ⟨column_format_ne_empty hc.1, column_format_ne_empty hc.1⟩
    · split at h
      · next hc =>
        rw [Except.ok.injEq] at h
        subst h
        exact ⟨column_format_ne_empty hc.1, column_format_ne_empty hc.1⟩
      · split at h
        · exact absurd h (by simp)
        · next hc =>
          rw [Except.ok.injEq] at h
          subst h
          push_neg at hc
          exact ⟨column_format_ne_empty hc.2,
            column_format_ne_empty (fun he => (hc.1 he).elim)⟩
  unfold assemble_required
  rw [if_pos hne.1, if_pos hne.2]
  constructor
  · rw [mem_pyDedup]
    simp
  · rw [mem_pyDedup]
    simp

theorem lookup_map_num (l : List (String × Rat)) (k : String) (v : Rat)
    (h : l.lookup k = some v) :
    (l.map (fun p => (p.1, PdVal.num p.2))).lookup k = some (PdVal.num v) := by
  induction l with
  | nil => simp [List.lookup] at h
  | cons a t ih =>
    by_cases hk : k = a.1
    · have hb : (k == a.1) = true := by simpa using hk
      simp only [List.lookup, hb] at h
      rw [Option.some.injEq] at h
      subst h
      simp [List.lookup, hb]
    · have hb : (k == a.1) = false := by simpa using hk
      simp only [List.lookup, hb] at h
      simp only [List.map_cons, List.lookup, hb]
      exact ih h

/-- The concrete asset used to exercise the valuation claims: one data
row dated 5 whose CLOSE column holds 1. -/
def c4sample : AssetState :=
  { name := "a", date := 0, price := PdVal.num 0, valuate_on := "CLOSE"
    data := [(5, [("CLOSE", 1)])] }

/-- C4 counterexample: valuating `c4sample` at date 3 — earlier than
every row of its dataset — does not fail with `MissingData`:
`DataFrame.asof` hands `_data_valuate` an all-NaN row, so the lookup
succeeds and `NaN` is stored as the price. -/
theorem c4_too_early_counterexample :
    data_valuate_at c4sample 3
      = Except.ok (PdVal.na, { c4sample with price := PdVal.na }) := rfl

/-- C4 (amended): valuating at or after the dataset's last row returns
(and stores as the current price) the last row's value in the configured
valuation column, with no interpolation or lookahead; valuating earlier
than every row does not raise `MissingData` but stores and returns
pandas' `NaN` price. -/
theorem c4_asof_boundaries (s : AssetState)
    (hsorted : s.data.Pairwise (fun a b => a.1 ≤ b.1))
    (last : Nat × List (String × Rat)) (hlast : s.data.getLast? = some last)
    (v : Rat) (hv : last.2.lookup s.valuate_on = some v)
    (first : Nat × List (String × Rat)) (hfirst : s.data.head? = some first)
    (hcol : s.valuate_on ∈ first.2.map Prod.fst) :
    (∀ d, last.1 ≤ d →
        data_valuate_at s d
          = Except.ok (PdVal.num v, { s with price := PdVal.num v }))
    ∧ (∀ d, d < first.1 →
        data_valuate_at s d
          = Except.ok (PdVal.na, { s with price := PdVal.na })) := by
  constructor
  · intro d hd
    unfold data_valuate_at frame_asof
    have hfl : (s.data.filter (fun r => decide (r.1 ≤ d))).getLast? = some last :=
      getLast_filter _ _ _ hlast (by simpa using hd)
    rw [hfl, lookup_map_num last.2 s.valuate_on v hv]
  · intro d hd
    unfold data_valuate_at frame_asof
    have hnil : s.data.filter (fun r => decide (r.1 ≤ d)) = [] := by
      rw [List.filter_eq_nil_iff]
      intro r hr
      simp only [decide_eq_true_eq]
      cases hsd : s.data with
      | nil => rw [hsd] at hr; simp at hr
      | cons a rest =>
        rw [hsd] at hr hfirst hsorted
        simp only [List.head?_cons, Option.some.injEq] at hfirst
        subst hfirst
        rcases List.mem_cons.mp hr with h | h
        · subst h; omega
        · have := (List.pairwise_cons.mp hsorted).1 r h
          omega
    rw [hnil, hfirst]
    simp [lookup_map_na first.2 s.valuate_on hcol]

/-- C4 witness: on the concrete asset, valuating at 9 (after the last
row at 5) yields that row's CLOSE value 1, and valuating at 3 (before
every row) yields the stored `NaN`. -/
theorem c4_asof_boundaries_witness :
    data_valuate_at c4sample 9
      = Except.ok (PdVal.num 1, { c4sample with price := PdVal.num 1 })
    ∧ data_valuate_at c4sample 3
      = Except.ok (PdVal.na, { c4sample with price := PdVal.na }) :=
  ⟨(c4_asof_boundaries c4sample (by decide) (5, [("CLOSE", 1)]) rfl 1 (by decide)
      (5, [("CLOSE", 1)]) rfl (by decide)).1 9 (by decide),
   (c4_asof_boundaries c4sample (by decide) (5, [("CLOSE", 1)]) rfl 1 (by decide)
      (5, [("CLOSE", 1)]) rfl (by decide)).2 3 (by decide)⟩

/-- C10 witness: the check holds for the resolution of a lone close name. -/
theorem c10_defensive_check_witness :
    "ADJ_CLOSE" ∈ assemble_required "ADJ_CLOSE" "ADJ_CLOSE" ["volume"]
    ∧ "ADJ_CLOSE" ∈ assemble_required "ADJ_CLOSE" "ADJ_CLOSE" ["volume"] :=
  c10_defensive_check "adj close" ""
    { open_value := "ADJ_CLOSE", close_value := "ADJ_CLOSE", single_valued := true }
    rfl ["volume"]

end AlphaGradient
